import Mathlib

/-!
Shallow embedding of the SiftPilot backend (deploy/index.js, deploy/index-basic.js).

The server is an Express application.  Handlers are embedded as pure
functions of the request data they read; a JavaScript member access on a
possibly-undefined value is modelled with `Option` (`none` = the handler
throws).  HTTP responses produced with `res.json` carry their body as an
ordered list of string fields, since every JSON body this server emits has
only string values; `res.redirect` and `res.send` are separate constructors.
Decorative emoji and insignificant whitespace of the HTML template strings
are elided.
-/

namespace SiftPilot

/-- A JSON object with string-valued fields, in emission order. -/
structure JsonObj where
  fields : List (String × String)
deriving DecidableEq, Repr

/-- An HTTP response: `res.status(s).json(body)`, `res.redirect(loc)`, or
`res.send(html)` (Express defaults the status of `json`/`send` to 200). -/
inductive HttpResponse where
  | json (status : Nat) (body : JsonObj)
  | redirect (location : String)
  | html (status : Nat) (body : String)
deriving DecidableEq, Repr

/-- The environment variables the embedded routes read (`process.env.X` is
`none` when the variable is unset). -/
structure Env where
  nodeEnv : Option String
  databaseUrl : Option String
  googleClientId : Option String
  googleClientSecret : Option String
deriving DecidableEq, Repr

/-- The user record built by the Google verify callback (index.js lines
64-70) and stored in the session. -/
structure User where
  id : String
  email : String
  name : String
  provider : String
  avatarUrl : String
deriving DecidableEq, Repr

/-- One entry of `profile.emails` as parsed by passport-google-oauth20:
the address and its `verified` flag from the userinfo response. -/
structure EmailEntry where
  value : String
  verified : Bool
deriving DecidableEq, Repr

/-- One entry of `profile.photos`. -/
structure PhotoEntry where
  value : String
deriving DecidableEq, Repr

/-- The parsed provider profile handed to the verify callback.  The
`emails`/`photos` arrays are `none` when the parser did not set the field
at all (JavaScript `undefined`). -/
structure Profile where
  id : String
  displayName : String
  emails : Option (List EmailEntry)
  photos : Option (List PhotoEntry)
deriving DecidableEq, Repr

/-- The raw Google userinfo payload: `sub`, `name`, optional `email` with
its `email_verified` flag, optional `picture`. -/
structure GoogleUserinfo where
  sub : String
  name : String
  email : Option String
  email_verified : Bool
  picture : Option String
deriving DecidableEq, Repr

/-- passport-google-oauth20 profile parsing: `id` from `sub`,
`displayName` from `name`; `emails` is set to the one-element list
`[{value: email, verified: email_verified}]` only when `email` is present,
and `photos` to `[{value: picture}]` only when `picture` is present. -/
def parseProfile (j : GoogleUserinfo) : Profile :=
  { id := j.sub
  , displayName := j.name
  , emails := j.email.map (fun e => [{ value := e, verified := j.email_verified }])
  , photos := j.picture.map (fun p => [{ value := p }]) }

/-- `xs[0]` on a possibly-undefined JavaScript array: `none` when the
array is undefined or empty. -/
def headEntry {α : Type} (o : Option (List α)) : Option α :=
  o.bind List.head?

/-- The GoogleStrategy verify callback (index.js lines 62-71).  It builds
`{id: profile.id, email: profile.emails[0].value, name: profile.displayName,
provider: "google", avatarUrl: profile.photos[0].value}`; the member
accesses `emails[0].value` and `photos[0].value` throw when the array is
undefined or empty, modelled as `none`. -/
def verifyCallback (profile : Profile) : Option User :=
  match headEntry profile.emails, headEntry profile.photos with
  | some e, some p =>
      some { id := profile.id
           , email := e.value
           , name := profile.displayName
           , provider := "google"
           , avatarUrl := p.value }
  | _, _ => none

/-- The options object passed to `new GoogleStrategy` (index.js lines
58-61) plus the `state` option of passport-oauth2, which index.js does not
set and which therefore keeps its default `false`. -/
structure StrategyConfig where
  clientID : String
  clientSecret : String
  callbackURL : String
  useState : Bool
deriving DecidableEq, Repr

/-- The strategy object index.js constructs from the two credential
variables: callback URL `/auth/google/callback`, no `state` option. -/
def googleStrategyConfig (cid cs : String) : StrategyConfig :=
  { clientID := cid, clientSecret := cs
  , callbackURL := "/auth/google/callback", useState := false }

/-- `new GoogleStrategy(opts)` as invoked at startup: OAuth2Strategy
throws when `clientID` is missing, so the constructor is `none` then. -/
def newGoogleStrategy (clientId clientSecret : Option String) : Option StrategyConfig :=
  match clientId with
  | none => none
  | some cid => some (googleStrategyConfig cid (clientSecret.getD ""))

/-- Startup strategy registration (index.js lines 57-73): the strategy is
constructed and registered only when both `GOOGLE_CLIENT_ID` and
`GOOGLE_CLIENT_SECRET` are set; `none` models a startup crash. -/
def configureStrategies (env : Env) : Option (List StrategyConfig) :=
  if env.googleClientId.isSome && env.googleClientSecret.isSome then
    (newGoogleStrategy env.googleClientId env.googleClientSecret).map (fun s => [s])
  else
    some []

/-- `passport.serializeUser` (index.js lines 48-50): stores the user
object verbatim in the session. -/
def serializeUser (user : User) : User := user

/-- `passport.deserializeUser` (index.js lines 52-54): returns the stored
object verbatim. -/
def deserializeUser (stored : User) : User := stored

/-- The session cookie `maxAge`: 24 hours in milliseconds (index.js line 39). -/
def cookieMaxAgeMs : Nat := 24 * 60 * 60 * 1000

/-- A server-side session record: the serialized user (absent until login
completes) and the cookie expiry instant in milliseconds. -/
structure SessionRecord where
  user : Option User
  expiresAt : Nat
deriving DecidableEq, Repr

/-- The in-memory session store: session id to record. -/
abbrev SessionStore := List (String × SessionRecord)

/-- Store destroy: removes the record for `sid`; removing an absent id is
not an error (MemoryStore semantics). -/
def storeDestroy (store : SessionStore) (sid : String) : SessionStore :=
  store.filter (fun kv => kv.1 != sid)

/-- Store read with lazy expiry: an expired record is treated as absent. -/
def sessionGet (store : SessionStore) (sid : String) (now : Nat) : Option SessionRecord :=
  match store.lookup sid with
  | some r => if now < r.expiresAt then some r else none
  | none => none

/-- `req.login(user)` after a successful callback: the serialized user is
placed in the session for `sid`, expiring `cookieMaxAgeMs` after `now`. -/
def sessionLogin (store : SessionStore) (sid : String) (u : User) (now : Nat) : SessionStore :=
  (sid, { user := some (serializeUser u), expiresAt := now + cookieMaxAgeMs }) ::
    storeDestroy store sid

/-- The Access Guard view of a session: `req.user` on a later request is
the deserialized stored user, provided the session exists and is not
expired. -/
def authorize (store : SessionStore) (sid : String) (now : Nat) : Option User :=
  (sessionGet store sid now).bind (fun r => r.user.map deserializeUser)

/-- `req.logout(cb)`: destroys the session and reports an error to the
callback only if the store fails; the in-memory store never fails, so the
error is always `none`, also on an unknown or already-destroyed id. -/
def sessionLogout (store : SessionStore) (sid : String) : Option String × SessionStore :=
  (none, storeDestroy store sid)

/-- The callback given to `req.logout` (index.js lines 154-159): on an
error it responds `500 {error: "Logout failed"}`, otherwise it redirects
home. -/
def logoutCallback (err : Option String) : HttpResponse :=
  match err with
  | some _ => .json 500 { fields := [("error", "Logout failed")] }
  | none => .redirect "/"

/-- The `/auth/logout` route (index.js lines 153-160): runs
`req.logout` and feeds its error to `logoutCallback`. -/
def logoutRoute (store : SessionStore) (sid : String) : HttpResponse × SessionStore :=
  let r := sessionLogout store sid
  (logoutCallback r.1, r.2)

/-- A request as the handlers see it: `req.user` is the deserialized
session user, absent when no authenticated session exists. -/
structure Request where
  user : Option User
deriving DecidableEq, Repr

/-- `req.isAuthenticated()`: true exactly when a session user is present. -/
def Request.isAuthenticated (req : Request) : Bool := req.user.isSome

/-- The `requireAuth` middleware (index.js lines 76-81): `none` means
`next()` was called (proceed to the handler); otherwise the returned
response ends the request. -/
def requireAuth (req : Request) : Option HttpResponse :=
  if req.isAuthenticated then none
  else some (.json 401 { fields := [("error", "Authentication required")] })

/-- A route guarded by `requireAuth`: the downstream handler runs only
when the middleware called `next()`. -/
def runProtected (handler : Request → Option HttpResponse) (req : Request) : Option HttpResponse :=
  match requireAuth req with
  | some resp => some resp
  | none => handler req

/-- The `/health` handler of index.js (lines 84-90); `nowIso` is the
ISO-formatted current time. -/
def healthHandler (env : Env) (nowIso : String) : HttpResponse :=
  .json 200 { fields :=
    [ ("status", "healthy")
    , ("timestamp", nowIso)
    , ("env", env.nodeEnv.getD "development") ] }

/-- The `/health` handler of index-basic.js (lines 14-20). -/
def healthHandlerBasic (env : Env) (nowIso : String) : HttpResponse :=
  .json 200 { fields :=
    [ ("status", "healthy")
    , ("timestamp", nowIso)
    , ("env", env.nodeEnv.getD "development") ] }

/-- The `/api/user` handler body (index.js lines 142-150): reads five
fields of `req.user`; it faults when `req.user` is absent (it is always
guarded by `requireAuth`). -/
def apiUserHandler (req : Request) : Option HttpResponse :=
  req.user.map (fun u =>
    .json 200 { fields :=
      [ ("id", u.id)
      , ("email", u.email)
      , ("name", u.name)
      , ("provider", u.provider)
      , ("avatarUrl", u.avatarUrl) ] })

/-- The `/dashboard` HTML body (index.js lines 130-139). -/
def dashboardHtml (u : User) : String :=
  "<h1>Welcome " ++ u.name ++ "!</h1>" ++
  "<p>Email: " ++ u.email ++ "</p>" ++
  "<p>Provider: " ++ u.provider ++ "</p>" ++
  "<img src=\"" ++ u.avatarUrl ++ "\" width=\"50\" height=\"50\">" ++
  "<a href=\"/api/user\">View User API</a>" ++
  "<a href=\"/auth/logout\">Logout</a>" ++
  "<a href=\"/\">Home</a>"

/-- The `/dashboard` handler body (index.js lines 129-140), guarded by
`requireAuth`. -/
def dashboardHandler (req : Request) : Option HttpResponse :=
  req.user.map (fun u => .html 200 (dashboardHtml u))

/-- The result of a GET on `/auth/google`. -/
inductive LoginRouteResult where
  | response (resp : HttpResponse)
  | redirectToProvider (cfg : StrategyConfig)
  | error (msg : String)
deriving DecidableEq, Repr

/-- The `/auth/google` route (index.js lines 106-111): a 500
configuration-error body when `GOOGLE_CLIENT_ID` is unset, otherwise
`passport.authenticate("google", ...)`, which redirects to the provider
when the strategy is registered and throws when it is not. -/
def authGoogleHandler (env : Env) : LoginRouteResult :=
  if env.googleClientId.isNone then
    .response (.json 500 { fields := [("error", "Google OAuth not configured")] })
  else
    match configureStrategies env with
    | some (cfg :: _) => .redirectToProvider cfg
    | _ => .error "Unknown authentication strategy google"

/-- The query parameters of a provider callback request: the
authorization code and the echoed anti-forgery state value, which may be
absent. -/
structure CallbackParams where
  code : String
  state : Option String
deriving DecidableEq, Repr

/-- The external provider for one exchange: the one authorization code it
accepts and the profile its userinfo endpoint returns. -/
structure ProviderModel where
  validCode : String
  profile : Profile
deriving DecidableEq, Repr

/-- passport-oauth2 state verification as configured: with
`useState = false` the strategy uses its null store, whose verify step
always succeeds without comparing anything; with `useState = true` the
session store compares the echoed value against the issued one. -/
def stateCheckPasses (cfg : StrategyConfig) (issued : Option String) (provided : Option String) : Bool :=
  if cfg.useState then
    match issued, provided with
    | some s, some p => s == p
    | _, _ => false
  else
    true

/-- The outcome of processing a callback request. -/
inductive CallbackOutcome where
  | failureRedirect (location : String)
  | success (u : User) (location : String)
  | fault
deriving DecidableEq, Repr

/-- A callback run: its outcome, and whether the authorization-code
exchange with the provider was performed. -/
structure CallbackRun where
  outcome : CallbackOutcome
  exchangePerformed : Bool
deriving DecidableEq, Repr

/-- The `/auth/google/callback` route (index.js lines 113-118):
`passport.authenticate` first runs the state-store verify step, then
exchanges the code for a token and fetches the profile, then runs the
verify callback; authentication failure redirects to `/login-failed`
(the configured failureRedirect) and success redirects to `/dashboard`. -/
def googleCallbackRoute (cfg : StrategyConfig) (prov : ProviderModel)
    (issuedState : Option String) (params : CallbackParams) : CallbackRun :=
  if stateCheckPasses cfg issuedState params.state then
    if params.code == prov.validCode then
      match verifyCallback prov.profile with
      | some u => { outcome := .success u "/dashboard", exchangePerformed := true }
      | none => { outcome := .fault, exchangePerformed := true }
    else
      { outcome := .failureRedirect "/login-failed", exchangePerformed := true }
  else
    { outcome := .failureRedirect "/login-failed", exchangePerformed := false }

/-- The home page HTML body (index.js lines 165-178); `userLine` is the
already-evaluated user interpolation. -/
def homeHtml (env : Env) (isLoggedIn : Bool) (userLine : String) : String :=
  "<h1>SiftPilot - Email Automation Platform</h1>" ++
  "<p>Status: " ++ env.nodeEnv.getD "development" ++ "</p>" ++
  "<p>Database: " ++ (if env.databaseUrl.isSome then "Connected" else "Not configured") ++ "</p>" ++
  "<p>User: " ++ userLine ++ "</p>" ++
  (if isLoggedIn then
    "<a href=\"/dashboard\">Dashboard</a><a href=\"/auth/logout\">Logout</a>"
  else
    "<a href=\"/auth/google\">Login with Google</a>") ++
  "<a href=\"/test\">Test API</a><a href=\"/health\">Health Check</a>"

/-- The `/` handler (index.js lines 163-179): `req.user.email` is
interpolated only under the `isLoggedIn` branch of the template, so the
dereference happens only when `isAuthenticated()` returned true. -/
def homeHandler (env : Env) (req : Request) : Option HttpResponse :=
  let isLoggedIn := req.isAuthenticated
  if isLoggedIn then
    req.user.map (fun u => .html 200 (homeHtml env true u.email))
  else
    some (.html 200 (homeHtml env false "Not logged in"))

/-- A complete provider profile used as a concrete test vector. -/
def sampleProfile : Profile :=
  { id := "42", displayName := "A"
  , emails := some [{ value := "a@x.com", verified := true }]
  , photos := some [{ value := "http://img" }] }

/-- A profile whose first email entry is unverified while the second is
verified. -/
def mixedEmailsProfile : Profile :=
  { id := "7", displayName := "B"
  , emails := some [ { value := "unverified@x.com", verified := false }
                   , { value := "verified@x.com", verified := true } ]
  , photos := some [{ value := "http://p" }] }

/-- A profile with a single unverified email entry and a photo. -/
def noVerifiedEmailProfile : Profile :=
  { id := "8", displayName := "C"
  , emails := some [{ value := "nv@x.com", verified := false }]
  , photos := some [{ value := "http://q" }] }

/-- A profile with a verified email but no photo field at all. -/
def noPhotoProfile : Profile :=
  { id := "9", displayName := "D"
  , emails := some [{ value := "d@x.com", verified := true }]
  , photos := none }

/-- The user record the verify callback produces from `sampleProfile`. -/
def sampleUser : User :=
  { id := "42", email := "a@x.com", name := "A"
  , provider := "google", avatarUrl := "http://img" }

/-- Looking up a session id after destroying it finds nothing. -/
theorem lookup_storeDestroy (store : SessionStore) (sid : String) :
    (storeDestroy store sid).lookup sid = none := by
  induction store with
  | nil => rfl
  | cons kv tl ih =>
      obtain ⟨k, v⟩ := kv
      by_cases h : k = sid
      · simpa [storeDestroy, List.filter_cons, h] using ih
      · have hs : (sid == k) = false := beq_eq_false_iff_ne.mpr (Ne.symm h)
        have hb : (k != sid) = true := by simp [bne_iff_ne, h]
        simp only [storeDestroy, List.filter_cons, hb, if_true, List.lookup, hs]
        simpa [storeDestroy] using ih

/-- C1.  The claim states that a callback whose state token differs from
the one issued by the preceding login start fails with an authentication
error before any authorization-code exchange.  The strategy is registered
without the state option, so the state-store verify step always passes:
at issued state "abc123" and echoed state "forged" with a valid code, the
exchange is performed and login succeeds. -/
theorem c1_state_never_checked :
    (googleCallbackRoute (googleStrategyConfig "cid" "secret")
      { validCode := "validcode", profile := sampleProfile }
      (some "abc123") { code := "validcode", state := some "forged" }) =
    { outcome := .success
        { id := "42", email := "a@x.com", name := "A"
        , provider := "google", avatarUrl := "http://img" } "/dashboard"
    , exchangePerformed := true } := by
  decide

/-- C2.  A request with no authenticated session to a route guarded by
`requireAuth` is answered with status 401 and exactly the JSON body with
the single field error = "Authentication required", whatever the
downstream handler is; the handler is therefore never executed. -/
theorem c2_requireAuth_rejects_unauthenticated
    (handler : Request → Option HttpResponse) (req : Request)
    (h : req.user = none) :
    runProtected handler req =
      some (.json 401 { fields := [("error", "Authentication required")] }) := by
  simp [runProtected, requireAuth, Request.isAuthenticated, h]

/-- Witness for C2: the guarded `/api/user` route at an anonymous request. -/
theorem c2_requireAuth_rejects_witness :
    runProtected apiUserHandler { user := none } =
      some (.json 401 { fields := [("error", "Authentication required")] }) :=
  c2_requireAuth_rejects_unauthenticated apiUserHandler { user := none } rfl

/-- C3 counterexample.  The claim states that an underlying session-store
error is never surfaced as a user-facing failure; but the callback the
logout route installs answers a store error with a 500 failure body
instead of the success redirect. -/
theorem c3_store_error_surfaced :
    logoutCallback (some "store failure") =
      .json 500 { fields := [("error", "Logout failed")] } ∧
    logoutCallback (some "store failure") ≠ .redirect "/" := by
  decide

/-- C3 amended.  Logout is idempotent with the configured in-memory
store: every call, including a repeated call on the same session id,
reports no error and redirects home, and the destroyed session no longer
authorizes; but a reported logout error is answered with a 500
failure body, not swallowed. -/
theorem c3_logout_idempotent (store : SessionStore) (sid : String) :
    (logoutRoute store sid).1 = .redirect "/" ∧
    (logoutRoute (logoutRoute store sid).2 sid).1 = .redirect "/" ∧
    (∀ now : Nat, authorize (logoutRoute store sid).2 sid now = none) ∧
    (∀ e : String, logoutCallback (some e) =
      .json 500 { fields := [("error", "Logout failed")] }) := by
  refine ⟨rfl, rfl, ?_, fun e => rfl⟩
  intro now
  simp [logoutRoute, sessionLogout, authorize, sessionGet, lookup_storeDestroy]

/-- C4 counterexample.  The claim states that login fails when no
verified email entry is present and that the email is taken from the
first verified entry.  The verify callback never reads the verified flag:
with an unverified first entry and a verified second entry it picks the
unverified one, and with only an unverified entry it still succeeds. -/
theorem c4_verified_flag_ignored :
    (verifyCallback mixedEmailsProfile).map User.email = some "unverified@x.com" ∧
    verifyCallback noVerifiedEmailProfile =
      some { id := "8", email := "nv@x.com", name := "C"
           , provider := "google", avatarUrl := "http://q" } := by
  decide

/-- C4 amended.  The verify callback ignores the verified flag: an
absent or empty email list makes it fault (no Principal), and whenever it
does produce a Principal, that Principal's email equals the value of the
first email entry of the profile, whatever its verification status. -/
theorem c4_email_first_entry (pr : Profile) :
    (headEntry pr.emails = none → verifyCallback pr = none) ∧
    (∀ u : User, verifyCallback pr = some u →
      (headEntry pr.emails).map EmailEntry.value = some u.email) := by
  constructor
  · intro h
    cases hp : headEntry pr.photos <;> simp [verifyCallback, h, hp]
  · intro u hu
    cases he : headEntry pr.emails with
    | none =>
        cases hp : headEntry pr.photos <;> simp [verifyCallback, he, hp] at hu
    | some e =>
        cases hp : headEntry pr.photos with
        | none => simp [verifyCallback, he, hp] at hu
        | some p =>
            simp [verifyCallback, he, hp] at hu
            subst hu
            simp

/-- Witness for C4 amended: at the mixed-emails profile the produced
email is the first (unverified) entry's value. -/
theorem c4_email_first_entry_witness :
    (headEntry mixedEmailsProfile.emails).map EmailEntry.value =
      some "unverified@x.com" :=
  (c4_email_first_entry mixedEmailsProfile).2
    { id := "7", email := "unverified@x.com", name := "B"
    , provider := "google", avatarUrl := "http://p" } rfl

/-- C5.  A verified profile with all of sub, email, name and picture maps
to the user {id = sub, email, name, provider = "google", avatarUrl =
picture}, and the authenticated `/api/user` route returns exactly the
JSON object with the fields id, email, name, provider, avatarUrl holding
those values. -/
theorem c5_profile_to_api_user (sub email nm picture : String) (v : Bool) :
    verifyCallback (parseProfile
      { sub := sub, name := nm, email := some email
      , email_verified := v, picture := some picture }) =
      some { id := sub, email := email, name := nm
           , provider := "google", avatarUrl := picture } ∧
    runProtected apiUserHandler
      { user := some { id := sub, email := email, name := nm
                     , provider := "google", avatarUrl := picture } } =
      some (.json 200 { fields :=
        [ ("id", sub), ("email", email), ("name", nm)
        , ("provider", "google"), ("avatarUrl", picture) ] }) :=
  ⟨rfl, rfl⟩

/-- C6.  With both provider credential variables unset, `/auth/google`
answers 500 with the configuration-error body, startup completes with no
strategy registered (no crash), and `/health` is served with its normal
body. -/
theorem c6_missing_credentials (env : Env) (nowIso : String)
    (hid : env.googleClientId = none) (hsec : env.googleClientSecret = none) :
    authGoogleHandler env =
      .response (.json 500 { fields := [("error", "Google OAuth not configured")] }) ∧
    configureStrategies env = some [] ∧
    healthHandler env nowIso =
      .json 200 { fields :=
        [ ("status", "healthy"), ("timestamp", nowIso)
        , ("env", env.nodeEnv.getD "development") ] } := by
  refine ⟨?_, ?_, rfl⟩
  · simp [authGoogleHandler, hid]
  · simp [configureStrategies, hid]

/-- Witness for C6 at a fully empty environment. -/
theorem c6_missing_credentials_witness :
    authGoogleHandler
      { nodeEnv := none, databaseUrl := none
      , googleClientId := none, googleClientSecret := none } =
      .response (.json 500 { fields := [("error", "Google OAuth not configured")] }) ∧
    configureStrategies
      { nodeEnv := none, databaseUrl := none
      , googleClientId := none, googleClientSecret := none } = some [] ∧
    healthHandler
      { nodeEnv := none, databaseUrl := none
      , googleClientId := none, googleClientSecret := none } "t" =
      .json 200 { fields :=
        [("status", "healthy"), ("timestamp", "t"), ("env", "development")] } :=
  c6_missing_credentials _ "t" rfl rfl

/-- C7 counterexample.  The claim states the profile-to-Principal mapping
is total when the photo list is empty or absent and that login still
succeeds; but the verify callback dereferences the first photo entry
unconditionally, so both an absent and an empty photo list make it fault
and login fails. -/
theorem c7_missing_photo_fails_login :
    verifyCallback noPhotoProfile = none ∧
    verifyCallback { noPhotoProfile with photos := some [] } = none := by
  decide

/-- C7 amended.  avatarUrl is mandatory in the code: the verify callback
faults whenever the photo list is absent or empty, and when a first photo
entry exists the produced avatarUrl is its value. -/
theorem c7_photo_required (pr : Profile) :
    (headEntry pr.photos = none → verifyCallback pr = none) ∧
    (∀ e p, headEntry pr.emails = some e → headEntry pr.photos = some p →
      (verifyCallback pr).map User.avatarUrl = some p.value) := by
  constructor
  · intro h
    cases he : headEntry pr.emails <;> simp [verifyCallback, h, he]
  · intro e p he hp
    simp [verifyCallback, he, hp]

/-- Witness for C7 amended at the photo-less profile. -/
theorem c7_photo_required_witness :
    verifyCallback noPhotoProfile = none :=
  (c7_photo_required noPhotoProfile).1 rfl

/-- C8.  The session serialize/deserialize round trip is the identity,
and after a completed login the Access Guard returns exactly the stored
principal for every instant before expiry, while a destroyed session no
longer authorizes. -/
theorem c8_authorize_returns_login_principal
    (store : SessionStore) (sid : String) (u : User) (t0 t1 : Nat)
    (h : t1 < t0 + cookieMaxAgeMs) :
    deserializeUser (serializeUser u) = u ∧
    authorize (sessionLogin store sid u t0) sid t1 = some u ∧
    authorize (storeDestroy (sessionLogin store sid u t0) sid) sid t1 = none := by
  refine ⟨rfl, ?_, ?_⟩
  · simp [authorize, sessionGet, sessionLogin, List.lookup, h,
      serializeUser, deserializeUser]
  · simp [authorize, sessionGet, lookup_storeDestroy]

/-- Witness for C8: a concrete login at time 0 read back at time 5. -/
theorem c8_authorize_witness :
    deserializeUser (serializeUser sampleUser) = sampleUser ∧
    authorize (sessionLogin [] "sid1" sampleUser 0) "sid1" 5 = some sampleUser ∧
    authorize (storeDestroy (sessionLogin [] "sid1" sampleUser 0) "sid1") "sid1" 5 = none :=
  c8_authorize_returns_login_principal [] "sid1" sampleUser 0 5 (by decide)

/-- C9.  The home page handler never faults: an anonymous request yields
the logged-out page without touching the user record, and an
authenticated request yields the logged-in page interpolating the user
email. -/
theorem c9_home_never_faults (env : Env) :
    homeHandler env { user := none } =
      some (.html 200 (homeHtml env false "Not logged in")) ∧
    ∀ u : User, homeHandler env { user := some u } =
      some (.html 200 (homeHtml env true u.email)) :=
  ⟨rfl, fun _ => rfl⟩

/-- C10.  For the same environment and clock reading, the `/health`
handler of the enhanced server and the one of the basic server produce
identical responses. -/
theorem c10_health_handlers_agree (env : Env) (nowIso : String) :
    healthHandler env nowIso = healthHandlerBasic env nowIso := rfl

end SiftPilot
